import Mathlib

/-!
Shallow embedding of the log-viewer front-end script
(`src/ui/static/js/logs.js`): the `FetchLogs` class (settings reading, URL
construction for the range and incremental fetch modes, the render/re-arm
step `showLogs`) and the `FilterLogs` class (type and keyword visibility
predicates over the rendered rows).

Modelling conventions:
- a numeric form-control value (`valueAsNumber`, or `value` coerced by JS
  arithmetic) is an `Option Nat`: `none` models `NaN` (non-numeric input);
  JS truthiness of such a value is "is `some n` with `n ≠ 0`";
- the field `toDate` is `Option Nat`: `none` models the JS value `false`
  that `getSettings` stores when the input is empty or zero;
- `Date.now() / 1000` is passed in as an explicit parameter `now` (seconds);
- DOM log rows are `Row` records; the `hidden` class is the Bool field
  `hidden`; appending to the list is list append.
-/

namespace Logs

/-- A log record as delivered by the server: `{ type, content }`. -/
structure LogRecord where
  type : String
  content : String
deriving DecidableEq, Repr

/-- A rendered DOM row: the `logs-type` text, the `logs-content` text, and
whether the `hidden` class is present. -/
structure Row where
  typeText : String
  contentText : String
  hidden : Bool
deriving DecidableEq, Repr

/-- The JSON body of a successful response:
`{ last_update: number, logs: LogRecord[] }`. -/
structure LogsResponse where
  last_update : Nat
  logs : List LogRecord
deriving DecidableEq, Repr

/-- JS truthiness of a numeric input value: `NaN` (`none`) and `0` are
falsy. -/
def numTruthy : Option Nat → Bool
  | some n => n != 0
  | none => false

/-- JS `String.prototype.trim`: strip whitespace from both ends. -/
def jsTrim (s : String) : String :=
  ⟨((s.data.dropWhile Char.isWhitespace).reverse.dropWhile
      Char.isWhitespace).reverse⟩

/-- The mutable fields of the `FetchLogs` instance.  Note the two distinct
fields `fromDate` and `formDate`: the constructor initializes
`this.fromDate = ""` but `getSettings` assigns `this.formDate` (a typo in
the source), so `fromDate` is never reassigned. -/
structure FetchState where
  instanceName : String
  fromDate : String
  formDate : Nat
  toDate : Option Nat
  isLiveUpdate : Bool
  updateDelay : Nat
  lastUpdate : Nat
deriving DecidableEq, Repr

/-- The `FetchLogs` constructor state: empty instance name and dates,
`isLiveUpdate = false`, `updateDelay = 2000`,
`lastUpdate = Math.round(Date.now() / 1000 - 86400)`. -/
def initialFetchState (now : Nat) : FetchState :=
  { instanceName := ""
    fromDate := ""
    formDate := 0
    toDate := none
    isLiveUpdate := false
    updateDelay := 2000
    lastUpdate := now - 86400 }

/-- The relevant form-control values read by `getSettings`. -/
structure SettingsInputs where
  instanceText : String
  fromDateValue : Option Nat
  toDateValue : Option Nat
  updateDelayValue : Option Nat
  liveUpdateChecked : Bool
deriving DecidableEq, Repr

/-- `FetchLogs.getSettings`: returns `none` when validation fails (empty
instance name, or trimmed name equal to the sentinel `"none"`), otherwise
the updated state.  Field-by-field from the source:
`formDate` (sic) gets `fromDateInp.valueAsNumber` if truthy, else
`now - 86400`; `toDate` gets `toDateInp.valueAsNumber` if truthy, else the
JS value `false` (here `none`); `updateDelay` gets the raw input value (not
multiplied) when `value * 1000` is truthy, else `2000`;
`isLiveUpdate` gets the checkbox state. -/
def getSettings (st : FetchState) (inp : SettingsInputs) (now : Nat) :
    Option FetchState :=
  if inp.instanceText = "" ∨ jsTrim inp.instanceText = "none" then none
  else some { st with
    instanceName := inp.instanceText
    formDate :=
      if numTruthy inp.fromDateValue then inp.fromDateValue.getD 0
      else now - 86400
    toDate := if numTruthy inp.toDateValue then inp.toDateValue else none
    updateDelay :=
      match inp.updateDelayValue with
      | some n => if n * 1000 ≠ 0 then n else 2000
      | none => 2000
    isLiveUpdate := inp.liveUpdateChecked }

/-- Stringification of the `toDate` field inside a JS template literal: the
value `false` prints as `"false"`. -/
def toDateStr : Option Nat → String
  | some n => toString n
  | none => "false"

/-- The argument `FetchLogs.getLogsFromToDate` passes to `fetch`.  In the
source the expression is a template literal, then `+ this.toDate`, then
`? ... : ...`; JS operator precedence parses it as
`(template + this.toDate) ? "?to_date=" + this.toDate : ""`, so the ternary
condition is the concatenated string itself (truthy whenever non-empty) and
the template holding the instance name and `from_date` is discarded. -/
def getLogsFromToDateUrl (href : String) (st : FetchState) : String :=
  let cond := href ++ "/" ++ st.instanceName ++ "?from_date=" ++
    st.fromDate ++ toDateStr st.toDate
  if cond ≠ "" then "?to_date=" ++ toDateStr st.toDate else ""

/-- The argument `FetchLogs.getLogsSinceLastUpdate` passes to `fetch`:
the instance path, with `?last_update=<cursor>` appended when the cursor is
truthy (non-zero). -/
def getLogsSinceLastUpdateUrl (href : String) (st : FetchState) : String :=
  href ++ "/" ++ st.instanceName ++
    (if st.lastUpdate ≠ 0 then "?last_update=" ++ toString st.lastUpdate
     else "")

/-- Rendering of one log record as `showLogs` builds it: a fresh `li` with
the record type and content, no `hidden` class. -/
def renderRow (l : LogRecord) : Row :=
  { typeText := l.type, contentText := l.content, hidden := false }

/-- Result of one `showLogs` call: the updated instance state, the rendered
list, and the delay of the one scheduled `getLogsSinceLastUpdate` timer when
the re-arm condition held (`none` when no fetch was scheduled; the source
has a single such `setTimeout`, so at most one fetch is ever scheduled). -/
structure ShowLogsResult where
  state : FetchState
  rendered : List Row
  sched : Option Nat
deriving DecidableEq, Repr

/-- `FetchLogs.showLogs`: set `this.lastUpdate = res.last_update`, append a
rendered row per record, and — when `this.isLiveUpdate && !this.toDate` —
schedule `getLogsSinceLastUpdate` after `this.updateDelay`.  (The
`goBottomList` scroll timer is a pure DOM effect and is not modelled.) -/
def showLogs (st : FetchState) (rendered : List Row) (res : LogsResponse) :
    ShowLogsResult :=
  let st2 := { st with lastUpdate := res.last_update }
  { state := st2
    rendered := rendered ++ res.logs.map renderRow
    sched :=
      if st2.isLiveUpdate = true ∧ st2.toDate = none then some st2.updateDelay
      else none }

/-- The submit click handler in `FetchLogs.init`: clears the rendered list,
then (immediately, or after one `updateDelay` when a live cycle was
running) calls `getSettings` and, only when it returns true, issues the
range-mode request.  The value is the URL of the request issued, `none`
when validation failed and no request is sent; the optional deferral does
not change which request is issued, so it is not modelled. -/
def submit (st : FetchState) (inp : SettingsInputs) (now : Nat)
    (href : String) : Option String :=
  match getSettings st inp now with
  | none => none
  | some st2 => some (getLogsFromToDateUrl href st2)

/-- The `FilterLogs` constructor initializes `this.lastType = ""`. -/
def initLastType : String := ""

/-- The reset loop at the top of `FilterLogs.filter`: remove the `hidden`
class from a row. -/
def resetRow (r : Row) : Row := { r with hidden := false }

/-- `FilterLogs.setFilterType`: no-op when the selected type is `"all"`;
otherwise add `hidden` to a row when (not `"misc"` and the row type differs
from the selected type) or (`"misc"` and the row type is neither `"info"`
nor `"message"`). -/
def setFilterType (lastType : String) (rows : List Row) : List Row :=
  if lastType = "all" then rows
  else rows.map fun r =>
    if (lastType ≠ "misc" ∧ r.typeText ≠ lastType) ∨
        (lastType = "misc" ∧ r.typeText ≠ "info" ∧ r.typeText ≠ "message")
    then { r with hidden := true } else r

/-- JS `content.includes(keyword)`: `keyword` occurs in `content` as a
case-sensitive contiguous substring. -/
def jsIncludes (content keyword : String) : Bool :=
  decide (List.IsInfix keyword.data content.data)

/-- `FilterLogs.setFilterKeyword`: no-op when the keyword input is empty
(falsy); otherwise add `hidden` to every row whose content does not include
the keyword. -/
def setFilterKeyword (keyword : String) (rows : List Row) : List Row :=
  if keyword = "" then rows
  else rows.map fun r =>
    if ¬ jsIncludes r.contentText keyword then { r with hidden := true }
    else r

/-- `FilterLogs.filter`: return unchanged when the list is empty; otherwise
un-hide every row, then apply the type and keyword predicates.  The source
then calls `this.setFilterDate(logs)`, a method the class never defines:
that call throws a TypeError, but only after the visibility updates below
have been applied to the DOM, so the rows' visibility is the value returned
here. -/
def filter (lastType keyword : String) (rows : List Row) : List Row :=
  if rows.length = 0 then rows
  else setFilterKeyword keyword (setFilterType lastType (rows.map resetRow))

/-- Spec reading of the type predicate (section 4.2): keep a row when the
selected type is `"all"`; when `"misc"`, keep rows whose type is `"info"`
or `"message"`; otherwise keep exactly the rows whose type equals the
selected type. -/
def specTypeKeeps (sel t : String) : Bool :=
  if sel = "all" then true
  else if sel = "misc" then decide (t = "info" ∨ t = "message")
  else decide (t = sel)

theorem map_resetRow_setFilterType (lt : String) (l : List Row) :
    (setFilterType lt l).map resetRow = l.map resetRow := by
  unfold setFilterType
  split
  · rfl
  · rw [List.map_map]
    apply List.map_congr_left
    intro r _
    dsimp [Function.comp]
    split <;> rfl

theorem map_resetRow_setFilterKeyword (kw : String) (l : List Row) :
    (setFilterKeyword kw l).map resetRow = l.map resetRow := by
  unfold setFilterKeyword
  split
  · rfl
  · rw [List.map_map]
    apply List.map_congr_left
    intro r _
    dsimp [Function.comp]
    split <;> rfl

theorem map_resetRow_idem (l : List Row) :
    (l.map resetRow).map resetRow = l.map resetRow := by
  rw [List.map_map]
  apply List.map_congr_left
  intro r _
  rfl

theorem length_setFilterType (lt : String) (l : List Row) :
    (setFilterType lt l).length = l.length := by
  unfold setFilterType
  split
  · rfl
  · simp

theorem length_setFilterKeyword (kw : String) (l : List Row) :
    (setFilterKeyword kw l).length = l.length := by
  unfold setFilterKeyword
  split
  · rfl
  · simp

theorem length_filter (lt kw : String) (l : List Row) :
    (filter lt kw l).length = l.length := by
  unfold filter
  split
  · rfl
  · rw [length_setFilterKeyword, length_setFilterType]
    simp

theorem map_resetRow_filter (lt kw : String) (l : List Row) :
    (filter lt kw l).map resetRow = l.map resetRow := by
  unfold filter
  split
  · rfl
  · rw [map_resetRow_setFilterKeyword, map_resetRow_setFilterType,
      map_resetRow_idem]

theorem setFilterKeyword_empty (l : List Row) :
    setFilterKeyword "" l = l := by
  unfold setFilterKeyword
  rw [if_pos rfl]

theorem filter_of_length_ne_zero (lt kw : String) (l : List Row)
    (h : l.length ≠ 0) :
    filter lt kw l = setFilterKeyword kw (setFilterType lt (l.map resetRow)) := by
  unfold filter
  rw [if_neg h]

theorem all_visible_map_resetRow (l : List Row) :
    ((l.map resetRow).all fun r => ! r.hidden) = true := by
  induction l with
  | nil => rfl
  | cons r rs ih => simp [resetRow, ih]

theorem exists_orig_of_mem_setFilterKeyword (kw : String) (l : List Row)
    (r : Row) (h : r ∈ setFilterKeyword kw l) :
    ∃ r0 ∈ l, r = r0 ∨ r = { r0 with hidden := true } := by
  unfold setFilterKeyword at h
  split at h
  · exact ⟨r, h, Or.inl rfl⟩
  · obtain ⟨r0, hr0, heq⟩ := List.mem_map.mp h
    refine ⟨r0, hr0, ?_⟩
    split at heq
    · exact Or.inr heq.symm
    · exact Or.inl heq.symm

theorem hidden_of_mem_setFilterType_empty (l : List Row) (r : Row)
    (h : r ∈ setFilterType "" l) (ht : r.typeText ≠ "") : r.hidden = true := by
  unfold setFilterType at h
  rw [if_neg (by decide)] at h
  obtain ⟨r0, hr0, heq⟩ := List.mem_map.mp h
  dsimp at heq
  split at heq
  · rw [← heq]
  · rename_i hcond
    rw [← heq] at ht
    have hempty : r0.typeText = "" := by
      by_contra hne
      exact hcond (Or.inl ⟨by decide, hne⟩)
    exact absurd hempty ht

/-- Claim C2 (counterexample): with selected type `"all"` and keyword
`"b"`, a visible row of type `"info"` and content `"a"` is hidden by
`filter`, so type `"all"` does not keep every row visible regardless of the
keyword filter state. -/
theorem c2_counterexample :
    filter "all" "b" [Row.mk "info" "a" false] =
      [Row.mk "info" "a" true] := by
  decide

/-- Claim C2 (amended): with selected type `"all"` the type predicate
keeps every row unchanged, and `filter` leaves every row visible whenever
the keyword input is empty; a non-empty keyword may still hide rows. -/
theorem c2_all_type_amended (rows : List Row) :
    setFilterType "all" rows = rows ∧
      ((filter "all" "" rows).all fun r => ! r.hidden) = true := by
  constructor
  · unfold setFilterType
    rw [if_pos rfl]
  · unfold filter
    split
    · rename_i hlen
      rw [List.length_eq_zero.mp hlen]
      rfl
    · rw [setFilterKeyword_empty]
      unfold setFilterType
      rw [if_pos rfl]
      exact all_visible_map_resetRow rows

/-- Claim C6: the type predicate of `setFilterType` agrees pointwise with
the spec's description: selected type `"all"` hides nothing, `"misc"`
keeps exactly the rows whose type is `"info"` or `"message"`, and any
other selected type keeps exactly the rows whose type equals it. -/
theorem c6_type_predicate (sel : String) (rows : List Row) :
    setFilterType sel rows =
      rows.map fun r =>
        if specTypeKeeps sel r.typeText then r
        else { r with hidden := true } := by
  by_cases hall : sel = "all"
  · subst hall
    simp [setFilterType, specTypeKeeps]
  · unfold setFilterType
    rw [if_neg hall]
    apply List.map_congr_left
    intro r _
    by_cases hmisc : sel = "misc"
    · subst hmisc
      by_cases hinfo : r.typeText = "info" <;>
        by_cases hmsg : r.typeText = "message" <;>
          simp [specTypeKeeps, hinfo, hmsg]
    · by_cases heq : r.typeText = sel <;>
        simp [specTypeKeeps, hall, hmisc, heq]

/-- Claim C7: the keyword predicate hides exactly the rows whose content
does not contain the keyword as a case-sensitive substring (the empty
keyword disabling it), and re-running `filter` after clearing the keyword
gives the same visibility as if the keyword had never been set — every row
hidden only by the keyword predicate is visible again. -/
theorem c7_keyword_predicate (kw lt : String) (rows : List Row) :
    (setFilterKeyword kw rows =
      rows.map fun r =>
        if kw ≠ "" ∧ ¬ jsIncludes r.contentText kw
        then { r with hidden := true } else r) ∧
      filter lt "" (filter lt kw rows) = filter lt "" rows := by
  constructor
  · by_cases hkw : kw = ""
    · subst hkw
      simp [setFilterKeyword]
    · unfold setFilterKeyword
      rw [if_neg hkw]
      apply List.map_congr_left
      intro r _
      simp [hkw]
  · by_cases hlen : rows.length = 0
    · rw [List.length_eq_zero.mp hlen]
      rfl
    · have hlen2 : (filter lt kw rows).length ≠ 0 := by
        rw [length_filter]
        exact hlen
      rw [filter_of_length_ne_zero lt "" (filter lt kw rows) hlen2,
        setFilterKeyword_empty, map_resetRow_filter,
        filter_of_length_ne_zero lt "" rows hlen, setFilterKeyword_empty]

/-- Claim C9: `FilterLogs` starts with `lastType = ""`, so a `filter` run
before any type has been selected hides every rendered row whose type text
is non-empty: the empty string is neither `"all"` nor `"misc"` nor any
actual row type. -/
theorem c9_initial_type_hides (rows : List Row) (kw : String) (r : Row)
    (hmem : r ∈ filter initLastType kw rows) (ht : r.typeText ≠ "") :
    r.hidden = true := by
  unfold filter initLastType at hmem
  split at hmem
  · rename_i hlen
    rw [List.length_eq_zero.mp hlen] at hmem
    cases hmem
  · obtain ⟨r0, hr0, hcase⟩ :=
      exists_orig_of_mem_setFilterKeyword _ _ _ hmem
    rcases hcase with h1 | h1
    · subst h1
      exact hidden_of_mem_setFilterType_empty _ _ hr0 ht
    · rw [h1]

/-- Witness for C9: on the single visible row of type `"info"`, the first
`filter` run (no type yet selected, empty keyword) leaves the row hidden. -/
theorem c9_initial_type_hides_witness :
    (Row.mk "info" "x" true).hidden = true :=
  c9_initial_type_hides [Row.mk "info" "x" false] ""
    (Row.mk "info" "x" true) (by decide) (by decide)

/-- Concrete settings for claim C1: a state that passes validation, with
instance name `"bunkerweb"`, a from-date, and no to-date. -/
def c1Inputs : SettingsInputs :=
  { instanceText := "bunkerweb", fromDateValue := some 100,
    toDateValue := none, updateDelayValue := some 5,
    liveUpdateChecked := false }

/-- Claim C1 (code bug): for every state, the range-mode request URL is
just `"?to_date=<toDate>"` — the ternary condition is the concatenated
base string (always non-empty, hence truthy), so the base holding the
instance name and the `from_date` parameter is discarded.  At the concrete
valid settings `c1Inputs` the requested URL is `"?to_date=false"`, which
contains neither the instance name nor `from_date`. -/
theorem c1_range_url_discards_base :
    (∀ (href : String) (st : FetchState),
        getLogsFromToDateUrl href st = "?to_date=" ++ toDateStr st.toDate) ∧
      Option.map (getLogsFromToDateUrl "http://host/logs")
          (getSettings (initialFetchState 1000000) c1Inputs 1000000) =
        some "?to_date=false" ∧
      jsIncludes "?to_date=false" "bunkerweb" = false ∧
      jsIncludes "?to_date=false" "from_date" = false := by
  refine ⟨?_, by decide, by decide, by decide⟩
  intro href st
  unfold getLogsFromToDateUrl
  rw [if_pos]
  intro hc
  have hlen := congrArg String.length hc
  simp only [String.length_append] at hlen
  have h1 : ("/" : String).length = 1 := rfl
  have h0 : ("" : String).length = 0 := rfl
  omega

/-- A live-update state with no to-date, used as a concrete witness
input. -/
def stLive : FetchState :=
  { instanceName := "i1", fromDate := "", formDate := 0, toDate := none,
    isLiveUpdate := true, updateDelay := 2000, lastUpdate := 7 }

/-- A response carrying a fresh cursor value and no records. -/
def resA : LogsResponse := { last_update := 42, logs := [] }

/-- Claim C3: with live update enabled and no to-date, `showLogs` schedules
exactly one incremental fetch (the `sched` field is `some`), after
`updateDelay` milliseconds; the cursor is set to the response's
`last_update`, and the scheduled fetch's URL carries that value as its
`last_update` parameter (the parameter is emitted for any truthy, i.e.
non-zero, cursor). -/
theorem c3_live_poll (st : FetchState) (rendered : List Row)
    (res : LogsResponse) (href : String)
    (hlive : st.isLiveUpdate = true) (hto : st.toDate = none) :
    (showLogs st rendered res).sched = some st.updateDelay ∧
      (showLogs st rendered res).state.lastUpdate = res.last_update ∧
      (res.last_update ≠ 0 →
        getLogsSinceLastUpdateUrl href (showLogs st rendered res).state =
          href ++ "/" ++ st.instanceName ++ "?last_update=" ++
            toString res.last_update) := by
  refine ⟨?_, rfl, ?_⟩
  · simp [showLogs, hlive, hto]
  · intro hne
    simp [showLogs, getLogsSinceLastUpdateUrl, hne, String.append_assoc]

/-- Witness for C3 at the concrete live state `stLive` and response
`resA`. -/
theorem c3_live_poll_witness :
    (showLogs stLive [] resA).sched = some stLive.updateDelay ∧
      (showLogs stLive [] resA).state.lastUpdate = resA.last_update ∧
      (resA.last_update ≠ 0 →
        getLogsSinceLastUpdateUrl "h" (showLogs stLive [] resA).state =
          "h" ++ "/" ++ stLive.instanceName ++ "?last_update=" ++
            toString resA.last_update) :=
  c3_live_poll stLive [] resA "h" rfl rfl

/-- A live-update state with a fixed to-date (closed range). -/
def stClosed : FetchState :=
  { instanceName := "i1", fromDate := "", formDate := 0, toDate := some 5,
    isLiveUpdate := true, updateDelay := 2000, lastUpdate := 7 }

/-- Claim C4: when a to-date is set, `showLogs` schedules no further fetch;
in general a fetch is scheduled exactly when `isLiveUpdate` holds and no
to-date is set. -/
theorem c4_closed_range (st : FetchState) (rendered : List Row)
    (res : LogsResponse) :
    (st.toDate ≠ none → (showLogs st rendered res).sched = none) ∧
      ((showLogs st rendered res).sched ≠ none ↔
        st.isLiveUpdate = true ∧ st.toDate = none) := by
  unfold showLogs
  dsimp only
  constructor
  · intro h
    rw [if_neg]
    rintro ⟨_, h2⟩
    exact h h2
  · split
    · rename_i h
      simp [h]
    · rename_i h
      simp [h]

/-- Witness for C4 at the closed-range state `stClosed`. -/
theorem c4_closed_range_witness :
    (showLogs stClosed [] resA).sched = none :=
  (c4_closed_range stClosed [] resA).1 (by decide)

/-- Claim C5: with an empty instance name or the sentinel `"none"`,
`submit` issues no request: `getSettings` fails validation and the fetch
step is skipped. -/
theorem c5_invalid_instance (st : FetchState) (inp : SettingsInputs)
    (now : Nat) (href : String)
    (h : inp.instanceText = "" ∨ inp.instanceText = "none") :
    submit st inp now href = none := by
  have hg : getSettings st inp now = none := by
    unfold getSettings
    rcases h with h | h
    · exact if_pos (Or.inl h)
    · refine if_pos (Or.inr ?_)
      rw [h]
      decide
  unfold submit
  rw [hg]

/-- The sentinel settings input for the C5 witness. -/
def inpNone : SettingsInputs :=
  { instanceText := "none", fromDateValue := none, toDateValue := none,
    updateDelayValue := none, liveUpdateChecked := false }

/-- Witness for C5: submitting with instance `"none"` issues no request. -/
theorem c5_invalid_instance_witness :
    submit (initialFetchState 0) inpNone 0 "h" = none :=
  c5_invalid_instance (initialFetchState 0) inpNone 0 "h" (Or.inr rfl)

/-- A state whose cursor is ahead of the server-reported value below. -/
def stCursor5 : FetchState :=
  { instanceName := "i1", fromDate := "", formDate := 0, toDate := none,
    isLiveUpdate := false, updateDelay := 2000, lastUpdate := 5 }

/-- A response whose `last_update` is behind the cursor of `stCursor5`. -/
def resLU3 : LogsResponse := { last_update := 3, logs := [] }

/-- Claim C8 (counterexample): `showLogs` sets the cursor to the
server-reported value unconditionally, so a response with `last_update = 3`
moves a cursor of 5 backwards — the cursor after the cycle is not greater
than or equal to its value before. -/
theorem c8_counterexample :
    ¬ stCursor5.lastUpdate ≤ (showLogs stCursor5 [] resLU3).state.lastUpdate := by
  decide

/-- Claim C8 (amended): after each batch the cursor equals the
server-reported `last_update`; it is greater than or equal to its prior
value whenever the server reports a value at least the prior cursor — the
code itself does not enforce monotonicity. -/
theorem c8_cursor_assignment (st : FetchState) (rendered : List Row)
    (res : LogsResponse) :
    (showLogs st rendered res).state.lastUpdate = res.last_update ∧
      (st.lastUpdate ≤ res.last_update →
        st.lastUpdate ≤ (showLogs st rendered res).state.lastUpdate) :=
  ⟨rfl, fun h => h⟩

/-- Witness for C8 at a response whose cursor value is ahead of the
state's. -/
theorem c8_cursor_assignment_witness :
    stCursor5.lastUpdate ≤ (showLogs stCursor5 [] resA).state.lastUpdate :=
  (c8_cursor_assignment stCursor5 [] resA).2 (by decide)

/-- Claim C10: when `getSettings` succeeds, a numeric non-zero delay input
`n` makes `updateDelay` the raw value `n` itself — never `n * 1000` — and a
non-numeric or zero input yields the default 2000; the re-arm timer
(claim C3) then fires after `updateDelay` milliseconds, so entering `n`
schedules after `n` ms, not `n` seconds. -/
theorem c10_delay_raw (st : FetchState) (inp : SettingsInputs) (now : Nat)
    (st2 : FetchState) (h : getSettings st inp now = some st2) :
    (∀ n, inp.updateDelayValue = some n → n ≠ 0 →
        st2.updateDelay = n ∧ st2.updateDelay ≠ n * 1000) ∧
      (inp.updateDelayValue = none ∨ inp.updateDelayValue = some 0 →
        st2.updateDelay = 2000) := by
  unfold getSettings at h
  split at h
  · cases h
  · injection h with h
    subst h
    constructor
    · intro n hn hne
      constructor
      · show (match inp.updateDelayValue with
          | some n => if n * 1000 ≠ 0 then n else 2000
          | none => 2000) = n
        rw [hn]
        simp only
        rw [if_pos]
        exact Nat.mul_ne_zero hne (by decide)
      · show (match inp.updateDelayValue with
          | some n => if n * 1000 ≠ 0 then n else 2000
          | none => 2000) ≠ n * 1000
        rw [hn]
        simp only
        rw [if_pos (Nat.mul_ne_zero hne (by decide))]
        omega
    · rintro (hn | hn) <;> simp [hn]

/-- Valid settings with a numeric delay input of 5 for the C10 witness. -/
def inpDelay5 : SettingsInputs :=
  { instanceText := "i1", fromDateValue := some 100, toDateValue := none,
    updateDelayValue := some 5, liveUpdateChecked := true }

/-- The state `getSettings` produces from `inpDelay5` over the initial
state at time 0. -/
def stDelay5 : FetchState :=
  { instanceName := "i1", fromDate := "", formDate := 100, toDate := none,
    isLiveUpdate := true, updateDelay := 5, lastUpdate := 0 }

/-- Witness for C10: a delay input of 5 yields an `updateDelay` of 5
milliseconds, not 5000. -/
theorem c10_delay_raw_witness :
    stDelay5.updateDelay = 5 ∧ stDelay5.updateDelay ≠ 5 * 1000 :=
  (c10_delay_raw (initialFetchState 0) inpDelay5 0 stDelay5 (by decide)).1 5
    rfl (by decide)

end Logs
